import Mathlib

/-!
Shallow embedding of the AdminKingsCare admin API routes (Next.js + Prisma +
zod) and proofs about them.  Each definition mirrors one handler or schema
from the repository source:

* `src/app/api/appointments/route.ts`            — admin appointment list/create
* `src/app/api/public/appointments` (booking)    — public booking create
* `src/app/api/appointments/[id]/route.ts`       — appointment partial update
* `src/app/api/patients/[id]/route.ts`           — patient update + usage reconciliation
* `src/app/api/users/route.ts`                   — user create
* `src/app/api/services/route.ts`                — service create (with schema-drift fallback)
* `src/app/api/services/[id]/route.ts`           — service partial update
* `src/app/api/uploads/route.ts`                 — file upload

JavaScript strings are Lean `String`s; optional JSON fields are `Option`;
a field that may be present-as-null is `Option (Option _)` (outer: supplied
at all, inner: null vs value). Timestamps are `Int`. Fallible persistence
calls return `Except`.
-/

namespace AdminKingsCare

/-- The `STATUS_ENUM` constant from the appointment routes. -/
def STATUS_ENUM : List String := ["BOOKED", "COMPLETED", "CANCELLED", "NO_SHOW"]

/-- Appointment status values (the Prisma enum backing `STATUS_ENUM`). -/
inductive Status where
  | BOOKED
  | COMPLETED
  | CANCELLED
  | NO_SHOW
deriving DecidableEq, Repr

/-- Decode a status string to the enum value (`statusParam as Status`). -/
def toStatus (s : String) : Option Status :=
  if s = "BOOKED" then some .BOOKED
  else if s = "COMPLETED" then some .COMPLETED
  else if s = "CANCELLED" then some .CANCELLED
  else if s = "NO_SHOW" then some .NO_SHOW
  else none

/-- JavaScript `String.prototype.trim`: strip whitespace on both ends. -/
def jsTrim (s : String) : String :=
  ⟨((s.data.dropWhile Char.isWhitespace).reverse.dropWhile Char.isWhitespace).reverse⟩

/-- `const sanitizePatientName = (name) => name?.trim() || undefined`
(appointments routes): trim, and an empty result becomes `undefined`. -/
def sanitizePatientName (name : Option String) : Option String :=
  match name with
  | none => none
  | some s => if (jsTrim s).length = 0 then none else some (jsTrim s)

/-- The JSON body accepted by `POST /api/appointments` before validation
(`createSchema`'s input shape). `date` is already a decoded timestamp. -/
structure CreateAppointmentRaw where
  patientId : Option String
  patientName : Option String
  serviceId : String
  staffId : Option String
  date : Int
  status : Option String
  notes : Option (Option String)
deriving DecidableEq, Repr

/-- The result of `createSchema.parse`: `patientName` is already trimmed
and non-empty, `status` decoded to the enum. -/
structure CreateAppointmentParsed where
  patientId : Option String
  patientName : Option String
  serviceId : String
  staffId : Option String
  date : Int
  status : Option Status
  notes : Option (Option String)
deriving DecidableEq, Repr

/-- `createSchema.parse` from `src/app/api/appointments/route.ts`:
`patientId`/`serviceId`/`staffId` must be non-empty when supplied
(`z.string().min(1)`), `patientName` is trimmed and must be non-empty
(`z.string().trim().min(1)`), `status` must be one of `STATUS_ENUM`, and the
`.refine` requires a truthy `patientId` or `patientName`. -/
def parseCreateAppointment (raw : CreateAppointmentRaw) :
    Except String CreateAppointmentParsed :=
  if raw.patientId.any (fun s => s.length = 0) then
    .error "String must contain at least 1 character(s)"
  else if (raw.patientName.map jsTrim).any (fun s => s.length = 0) then
    .error "Patient name is required when no patient is selected."
  else if raw.serviceId.length = 0 then
    .error "String must contain at least 1 character(s)"
  else if raw.staffId.any (fun s => s.length = 0) then
    .error "String must contain at least 1 character(s)"
  else
    match raw.status with
    | some s =>
      match toStatus s with
      | none => .error "Invalid enum value"
      | some st =>
        if raw.patientId.isNone && (raw.patientName.map jsTrim).isNone then
          .error "Provide a patient or enter a name."
        else
          .ok ⟨raw.patientId, raw.patientName.map jsTrim, raw.serviceId,
               raw.staffId, raw.date, some st, raw.notes⟩
    | none =>
      if raw.patientId.isNone && (raw.patientName.map jsTrim).isNone then
        .error "Provide a patient or enter a name."
      else
        .ok ⟨raw.patientId, raw.patientName.map jsTrim, raw.serviceId,
             raw.staffId, raw.date, none, raw.notes⟩

/-- A stored `Appointment` row (the columns the claims are about). An
unset/cleared optional column is `none` (SQL `NULL`). -/
structure AppointmentRow where
  patientId : Option String
  customPatientName : Option String
  serviceId : String
  staffId : Option String
  date : Int
  status : Status
  notes : Option String
deriving DecidableEq, Repr

/-- The `POST /api/appointments` handler: parse, sanitize the guest name,
and build the row handed to `prisma.appointment.create`
(`customPatientName` is only set when `patientId` is falsy; omitted `status`
defaults to `BOOKED`; `notes ?? undefined` leaves the column `NULL` when the
client sent null or nothing). Validation failure returns the 400 branch. -/
def postAppointment (raw : CreateAppointmentRaw) : Except String AppointmentRow :=
  match parseCreateAppointment raw with
  | .error e => .error e
  | .ok payload =>
    let patientName := sanitizePatientName payload.patientName
    .ok
      { patientId := payload.patientId
        customPatientName := if payload.patientId.isSome then none else patientName
        serviceId := payload.serviceId
        staffId := payload.staffId
        date := payload.date
        status := payload.status.getD .BOOKED
        notes := payload.notes.bind id }

/-- The JSON body accepted by the public booking endpoint (`bookingSchema`):
no `staffId`, no `status` field at all. -/
structure BookingRaw where
  patientId : Option String
  patientName : Option String
  serviceId : String
  date : Int
  notes : Option String
deriving DecidableEq, Repr

/-- `bookingSchema.parse` for the public booking route: same non-empty and
trim rules, same `.refine`, no staff/status fields. -/
def parseBooking (raw : BookingRaw) : Except String BookingRaw :=
  if raw.patientId.any (fun s => s.length = 0) then
    .error "String must contain at least 1 character(s)"
  else if (raw.patientName.map jsTrim).any (fun s => s.length = 0) then
    .error "Patient name is required when no patient is selected."
  else if raw.serviceId.length = 0 then
    .error "String must contain at least 1 character(s)"
  else if raw.patientId.isNone && (raw.patientName.map jsTrim).isNone then
    .error "Provide a patient from the directory or enter a name."
  else
    .ok { raw with
          patientName := raw.patientName.map jsTrim
          notes := raw.notes.map jsTrim }

/-- The public booking `POST` handler: always stores `STATUS_DEFAULT =
'BOOKED'`, never sets `staffId`, and clears the guest name when a
`patientId` is supplied. -/
def postPublicBooking (raw : BookingRaw) : Except String AppointmentRow :=
  match parseBooking raw with
  | .error e => .error e
  | .ok payload =>
    let customName := sanitizePatientName payload.patientName
    .ok
      { patientId := payload.patientId
        customPatientName := if payload.patientId.isSome then none else customName
        serviceId := payload.serviceId
        staffId := none
        date := payload.date
        status := .BOOKED
        notes := sanitizePatientName payload.notes }

/-- The JSON body accepted by `PATCH /api/appointments/[id]`
(`updateSchema` in `src/app/api/appointments/[id]/route.ts`): every field
optional, `patientId`/`patientName`/`staffId`/`notes` additionally nullable. -/
structure PatchAppointmentRaw where
  patientId : Option (Option String)
  patientName : Option (Option String)
  serviceId : Option String
  staffId : Option (Option String)
  date : Option Int
  status : Option String
  notes : Option (Option String)
deriving DecidableEq, Repr

/-- Result of the PATCH `updateSchema.parse`: `patientName` trimmed,
`status` decoded. -/
structure PatchAppointmentParsed where
  patientId : Option (Option String)
  patientName : Option (Option String)
  serviceId : Option String
  staffId : Option (Option String)
  date : Option Int
  status : Option Status
  notes : Option (Option String)
deriving DecidableEq, Repr

/-- `updateSchema.parse` for `PATCH /api/appointments/[id]`: a supplied
non-null `patientId`/`serviceId`/`staffId` must be non-empty, a supplied
non-null `patientName` is trimmed and must be non-empty, a supplied `status`
must be in `STATUS_ENUM`. -/
def parsePatchAppointment (raw : PatchAppointmentRaw) :
    Except String PatchAppointmentParsed :=
  if (raw.patientId.bind id).any (fun s => s.length = 0) then
    .error "String must contain at least 1 character(s)"
  else if ((raw.patientName.map (fun v => v.map jsTrim)).bind id).any (fun s => s.length = 0) then
    .error "String must contain at least 1 character(s)"
  else if raw.serviceId.any (fun s => s.length = 0) then
    .error "String must contain at least 1 character(s)"
  else if (raw.staffId.bind id).any (fun s => s.length = 0) then
    .error "String must contain at least 1 character(s)"
  else
    match raw.status with
    | some s =>
      match toStatus s with
      | none => .error "Invalid enum value"
      | some st =>
        .ok ⟨raw.patientId, raw.patientName.map (fun v => v.map jsTrim),
             raw.serviceId, raw.staffId, raw.date, some st, raw.notes⟩
    | none =>
      .ok ⟨raw.patientId, raw.patientName.map (fun v => v.map jsTrim),
           raw.serviceId, raw.staffId, raw.date, none, raw.notes⟩

/-- The `data` object built by the PATCH handler, applied to the existing
row by `prisma.appointment.update`: an `undefined` field leaves the column
unchanged; `customPatientName` is `null` when the supplied `patientId` is
truthy (non-empty string), else it falls back to `patientName` when that
was supplied (`sanitizePatientName(patientName) ?? null`), else stays. -/
def applyPatchAppointment (row : AppointmentRow) (p : PatchAppointmentParsed) :
    AppointmentRow :=
  { patientId :=
      match p.patientId with
      | none => row.patientId
      | some v => v
    customPatientName :=
      if (p.patientId.bind id).any (fun s => !s.isEmpty) then
        none
      else
        match p.patientName with
        | none => row.customPatientName
        | some v => sanitizePatientName v
    serviceId := p.serviceId.getD row.serviceId
    staffId :=
      match p.staffId with
      | none => row.staffId
      | some v => v
    date := p.date.getD row.date
    status := p.status.getD row.status
    notes :=
      match p.notes with
      | none => row.notes
      | some v => v }

/-- The `PATCH /api/appointments/[id]` handler acting on the appointment row
it addresses: parse, then update. A zod failure is caught and reported as
the 400 branch; the row is then left as it was. -/
def patchAppointment (row : AppointmentRow) (raw : PatchAppointmentRaw) :
    Except String AppointmentRow :=
  match parsePatchAppointment raw with
  | .error _ => .error "Unable to update appointment"
  | .ok p => .ok (applyPatchAppointment row p)

/-- The stored appointment row after a `PATCH /api/appointments/[id]`
request: the updated row when the handler succeeds, the untouched original
when the request is rejected. -/
def patchAppointmentOutcome (row : AppointmentRow) (raw : PatchAppointmentRaw) :
    AppointmentRow :=
  match patchAppointment row raw with
  | .ok out => out
  | .error _ => row

/-- A stored `Patient` row (fields touched by `PUT /api/patients/[id]`). -/
structure PatientRow where
  id : String
  firstName : String
  lastName : String
  phone : Option String
  email : Option String
  dob : Option Int
  notes : Option String
deriving DecidableEq, Repr

/-- A stored `PatientServiceUsage` row; `(patientId, serviceId)` is unique. -/
structure UsageRow where
  patientId : String
  serviceId : String
  usedAt : Int
deriving DecidableEq, Repr

/-- The relational state touched by the patient routes: patients, the
service ids that exist (for foreign keys), and the usage join rows. -/
structure PatientDb where
  patients : List PatientRow
  serviceIds : List String
  usages : List UsageRow
deriving DecidableEq, Repr

/-- The JSON body accepted by `PUT /api/patients/[id]` (`updateSchema` in
`src/app/api/patients/[id]/route.ts`), already past zod validation: only
what the claims need — the usage reconciliation runs on `serviceIds`
(present iff the client sent the array) while the scalar fields update the
patient row. -/
structure PatientUpdatePayload where
  firstName : Option String
  lastName : Option String
  phone : Option (Option String)
  email : Option (Option String)
  dob : Option (Option Int)
  notes : Option (Option String)
  serviceIds : Option (List String)
deriving DecidableEq, Repr

/-- Errors surfaced by the modelled Prisma calls. -/
inductive PrismaError where
  | uniqueConstraint (fields : List String)  -- P2002
  | notFound                                 -- P2025
  | foreignKey                               -- P2003
deriving DecidableEq, Repr

/-- Apply the scalar part of the update payload to a patient row
(an `undefined` field leaves the column unchanged). -/
def applyPatientUpdate (row : PatientRow) (p : PatientUpdatePayload) : PatientRow :=
  { row with
    firstName := p.firstName.getD row.firstName
    lastName := p.lastName.getD row.lastName
    phone := match p.phone with | none => row.phone | some v => v
    email := match p.email with | none => row.email | some v => v
    dob := match p.dob with | none => row.dob | some v => v
    notes := match p.notes with | none => row.notes | some v => v }

/-- `tx.patient.update({where:{id}, data})`: fails with P2025 when the id
does not exist, with P2002 when the new email or phone collides with
another patient's (the columns are unique). -/
def prismaPatientUpdate (db : PatientDb) (pid : String) (p : PatientUpdatePayload) :
    Except PrismaError PatientDb :=
  match db.patients.find? (fun r => r.id = pid) with
  | none => .error .notFound
  | some row =>
    if db.patients.any (fun r =>
        r.id ≠ pid ∧ r.email.isSome ∧ r.email = (applyPatientUpdate row p).email) then
      .error (.uniqueConstraint ["email"])
    else if db.patients.any (fun r =>
        r.id ≠ pid ∧ r.phone.isSome ∧ r.phone = (applyPatientUpdate row p).phone) then
      .error (.uniqueConstraint ["phone"])
    else
      .ok { db with
            patients := db.patients.map
              (fun r => if r.id = pid then applyPatientUpdate row p else r) }

/-- JavaScript `new Set(list)` spread back to an array: deduplicate keeping
the first occurrence of each element. -/
def jsSetList (l : List String) : List String :=
  (l.foldl (fun acc x => if acc.contains x then acc else x :: acc) []).reverse

/-- `existingIds` in `PUT /api/patients/[id]`: the distinct service ids of
the patient's current usage rows (`new Set(existingUsages.map(...))`). -/
def existingIdsFor (db : PatientDb) (pid : String) : List String :=
  jsSetList ((db.usages.filter (fun u => u.patientId = pid)).map (·.serviceId))

/-- `toDelete`: existing ids no longer in the incoming set. -/
def toDeleteFor (db : PatientDb) (pid : String) (serviceIds : List String) :
    List String :=
  (existingIdsFor db pid).filter (fun i => !(jsSetList serviceIds).contains i)

/-- `toCreate`: incoming ids not yet present. -/
def toCreateFor (db : PatientDb) (pid : String) (serviceIds : List String) :
    List String :=
  (jsSetList serviceIds).filter (fun i => !(existingIdsFor db pid).contains i)

/-- The usage table after the `deleteMany({patientId, serviceId ∈ toDelete})`. -/
def afterDeleteFor (db : PatientDb) (pid : String) (serviceIds : List String) :
    List UsageRow :=
  db.usages.filter
    (fun u => !(u.patientId = pid ∧ (toDeleteFor db pid serviceIds).contains u.serviceId))

/-- The usage-reconciliation block of `PUT /api/patients/[id]`, executed
when `serviceIds` was supplied: read the existing service ids for the
patient, diff against the incoming set, `deleteMany` the ids no longer
present, `createMany ... skipDuplicates` the newly present ones (stamped
with the transaction time `now`). `createMany` fails with P2003 when a new
service id does not exist. -/
def reconcileUsages (db : PatientDb) (pid : String) (serviceIds : List String)
    (now : Int) : Except PrismaError PatientDb :=
  if (toCreateFor db pid serviceIds).any (fun i => !db.serviceIds.contains i) then
    .error .foreignKey
  else
    .ok { db with
          usages := afterDeleteFor db pid serviceIds ++
            ((toCreateFor db pid serviceIds).filter (fun i =>
              !(afterDeleteFor db pid serviceIds).any
                (fun u => u.patientId = pid ∧ u.serviceId = i))).map
              (fun i => ⟨pid, i, now⟩) }

/-- The body of the `prisma.$transaction` callback in `PUT /api/patients/[id]`:
update the patient row, then (when `serviceIds` was supplied) reconcile the
usage rows. -/
def putPatientTxBody (db : PatientDb) (pid : String) (p : PatientUpdatePayload)
    (now : Int) : Except PrismaError PatientDb :=
  match prismaPatientUpdate db pid p with
  | .error e => .error e
  | .ok db1 =>
    match p.serviceIds with
    | none => .ok db1
    | some ids => reconcileUsages db1 pid ids now

/-- The `PUT /api/patients/[id]` handler: the transaction body runs under
`prisma.$transaction`, whose semantics roll every statement back when any
of them throws — on error the database is exactly the initial one and the
catch block answers with an error response. -/
def putPatient (db : PatientDb) (pid : String) (p : PatientUpdatePayload)
    (now : Int) : PatientDb × Except PrismaError Unit :=
  match putPatientTxBody db pid p now with
  | .ok db1 => (db1, .ok ())
  | .error e => (db, .error e)

/-- A stored `User` row; `email` is unique. -/
structure UserRow where
  email : String
  name : Option String
  role : String
  passwordHash : String
deriving DecidableEq, Repr

/-- The body accepted by `POST /api/users` after `createSchema.parse`
(email format, `password` at least 6 chars, `role` in the enum — checks
orthogonal to the claims settled here). -/
structure CreateUserPayload where
  email : String
  name : Option String
  role : Option String
  password : String
deriving DecidableEq, Repr

/-- An HTTP JSON error response: status code and `error` message. -/
structure ErrorResponse where
  status : Nat
  message : String
deriving DecidableEq, Repr

/-- Outcome of a create endpoint: a created row (HTTP 201) or an error
response. -/
inductive CreateUserResult where
  | created (user : UserRow)
  | failed (resp : ErrorResponse)
deriving DecidableEq, Repr

/-- `prisma.user.create`: throws P2002 on the unique `email` column when a
user with that email already exists. -/
def prismaUserCreate (db : List UserRow) (u : UserRow) :
    Except PrismaError (List UserRow) :=
  if db.any (fun r => r.email = u.email) then
    .error (.uniqueConstraint ["email"])
  else
    .ok (db ++ [u])

/-- The `POST /api/users` handler from `src/app/api/users/route.ts`: hash
the password (modelled abstractly as a function of the password), create
the user with role defaulting to `STAFF`, and — as in the source, which has
no `handleKnownError` — answer every thrown error with
`400 "Unable to create user"`. -/
def postUser (hash : String → String) (db : List UserRow)
    (p : CreateUserPayload) : List UserRow × CreateUserResult :=
  let u : UserRow :=
    { email := p.email, name := p.name, role := p.role.getD "STAFF",
      passwordHash := hash p.password }
  match prismaUserCreate db u with
  | .ok db1 => (db1, .created u)
  | .error _ => (db, .failed ⟨400, "Unable to create user"⟩)

/-- The `uniqueFieldMessage` table shared by the patient and doctor routes
(`src/app/api/patients/route.ts`): unique-violation field → message. -/
def uniqueFieldMessage (field : String) : Option String :=
  if field = "email" then some "Email already in use."
  else if field = "phone" then some "Phone number already in use."
  else none

/-- `handleKnownError` from `src/app/api/patients/route.ts`: a P2002 error
becomes a 409 with the first mapped field's message, or a generic duplicate
message; anything else is not handled here. -/
def handleKnownError (e : PrismaError) : Option ErrorResponse :=
  match e with
  | .uniqueConstraint fields =>
    match fields.findSome? uniqueFieldMessage with
    | some msg => some ⟨409, msg⟩
    | none => some ⟨409, "Duplicate value detected."⟩
  | _ => none

/-- `String.prototype.includes`: substring search. -/
def strContains (hay needle : String) : Bool :=
  hay.data.tails.any (fun t => needle.data.isPrefixOf t)

/-- zod's `z.string().cuid()` format check (`/^c[^\s-]{8,}$/i`): a leading
`c`, then at least 8 characters none of which is whitespace or `-`. -/
def isCuid (s : String) : Bool :=
  match s.data with
  | [] => false
  | c :: rest =>
    (c = 'c' ∨ c = 'C') ∧ rest.length ≥ 8 ∧
      rest.all (fun ch => !ch.isWhitespace ∧ ch ≠ '-')

/-- A stored `Service` row. -/
structure ServiceRow where
  id : String
  name : String
  description : String
  shortDescription : Option String
  priority : Option Int
  durationMin : Int
  priceCents : Int
  active : Bool
  parentId : Option String
  images : List String
deriving DecidableEq, Repr

/-- The service table together with the deployed Prisma client's knowledge
of the two late-added optional columns: when a flag is false the generated
client pre-dates the column and rejects it as an unknown argument. -/
structure ServiceDb where
  rows : List ServiceRow
  hasShortDescription : Bool
  hasPriority : Bool
deriving DecidableEq, Repr

/-- The `parent` relation operation in a Prisma `data` object. -/
inductive ParentOp where
  | connect (id : String)
  | disconnect
deriving DecidableEq, Repr

/-- A Prisma `data` object for `service.create` / `service.update`: an
outer `none` means the key is absent from the object. -/
structure ServiceData where
  name : Option String
  description : Option String
  durationMin : Option Int
  priceCents : Option Int
  shortDescription : Option (Option String)
  priority : Option (Option Int)
  active : Option Bool
  parent : Option ParentOp
  images : Option (List String)
deriving DecidableEq, Repr

/-- The `data` object with every key absent. -/
def ServiceData.empty : ServiceData := ⟨none, none, none, none, none, none, none, none, none⟩

/-- Argument validation the generated Prisma client performs before running
a query: a `shortDescription`/`priority` key is an unknown argument when the
client pre-dates that column. Returns the error message thrown. -/
def prismaServiceArgCheck (db : ServiceDb) (data : ServiceData) : Option String :=
  if data.shortDescription.isSome ∧ !db.hasShortDescription then
    some "Unknown argument `shortDescription`. Available options are listed in green."
  else if data.priority.isSome ∧ !db.hasPriority then
    some "Unknown argument `priority`. Available options are listed in green."
  else
    none

/-- `prisma.service.create({data})`: validate arguments, resolve a
`parent.connect` (which must reference an existing row), and insert a row
with the given fresh id; absent optional keys take the column defaults. -/
def prismaServiceCreate (db : ServiceDb) (newId : String) (data : ServiceData) :
    Except String (ServiceDb × ServiceRow) :=
  match prismaServiceArgCheck db data with
  | some msg => .error msg
  | none =>
    match data.parent with
    | some (.connect p) =>
      if db.rows.any (fun r => r.id = p) then
        let row : ServiceRow :=
          ⟨newId, data.name.getD "", data.description.getD "",
           data.shortDescription.bind id, data.priority.bind id,
           data.durationMin.getD 30, data.priceCents.getD 0,
           data.active.getD true, some p, data.images.getD []⟩
        .ok ({ db with rows := db.rows ++ [row] }, row)
      else
        .error "An operation failed because it depends on one or more records that were required but not found."
    | _ =>
      let row : ServiceRow :=
        ⟨newId, data.name.getD "", data.description.getD "",
         data.shortDescription.bind id, data.priority.bind id,
         data.durationMin.getD 30, data.priceCents.getD 0,
         data.active.getD true, none, data.images.getD []⟩
      .ok ({ db with rows := db.rows ++ [row] }, row)

/-- Apply an update `data` object to an existing row (absent keys leave the
column unchanged). -/
def applyServiceData (row : ServiceRow) (data : ServiceData) : ServiceRow :=
  { row with
    name := data.name.getD row.name
    description := data.description.getD row.description
    durationMin := data.durationMin.getD row.durationMin
    priceCents := data.priceCents.getD row.priceCents
    shortDescription :=
      match data.shortDescription with
      | none => row.shortDescription
      | some v => v
    priority :=
      match data.priority with
      | none => row.priority
      | some v => v
    active := data.active.getD row.active
    parentId :=
      match data.parent with
      | none => row.parentId
      | some (.connect p) => some p
      | some .disconnect => none
    images := data.images.getD row.images }

/-- `prisma.service.update({where:{id}, data})`: validate arguments, require
the target row (and any `parent.connect` target) to exist, then apply. -/
def prismaServiceUpdate (db : ServiceDb) (id : String) (data : ServiceData) :
    Except String (ServiceDb × ServiceRow) :=
  match prismaServiceArgCheck db data with
  | some msg => .error msg
  | none =>
    match db.rows.find? (fun r => r.id = id) with
    | none => .error "An operation failed because it depends on one or more records that were required but not found."
    | some row =>
      let connectOk :=
        match data.parent with
        | some (.connect p) => db.rows.any (fun r => r.id = p)
        | _ => true
      if connectOk then
        let updated := applyServiceData row data
        .ok ({ db with rows := db.rows.map (fun r => if r.id = id then updated else r) },
             updated)
      else
        .error "An operation failed because it depends on one or more records that were required but not found."

/-- The JSON body of `POST /api/services` (`serviceSchema`'s input shape in
`src/app/api/services/route.ts`). -/
structure ServiceCreateRaw where
  name : String
  durationMin : Option Int
  priceCents : Option Int
  description : String
  shortDescription : Option (Option String)
  active : Option Bool
  parentId : Option (Option String)
  images : List String
deriving DecidableEq, Repr

/-- `serviceSchema.parse` output: strings trimmed, `durationMin` defaulted
to 30, `images` deduplicated. -/
structure ServiceCreateParsed where
  name : String
  durationMin : Int
  priceCents : Option Int
  description : String
  shortDescription : Option (Option String)
  active : Option Bool
  parentId : Option (Option String)
  images : List String
deriving DecidableEq, Repr

/-- `serviceSchema.parse`: trimmed non-empty `name`/`description`,
`durationMin` a positive int at most 480 (default 30), non-negative
`priceCents`, trimmed `shortDescription` of at most 200 chars, `parentId` a
cuid when supplied non-null, `images` trimmed, non-empty each, deduplicated
and non-empty as a list. -/
def parseServiceCreate (raw : ServiceCreateRaw) :
    Except String ServiceCreateParsed :=
  if (jsTrim raw.name).length = 0 then .error "String must contain at least 1 character(s)"
  else if ¬(1 ≤ raw.durationMin.getD 30 ∧ raw.durationMin.getD 30 ≤ 480) then .error "Invalid durationMin"
  else if raw.priceCents.any (fun p => p < 0) then .error "Invalid priceCents"
  else if (jsTrim raw.description).length = 0 then .error "Description is required"
  else if raw.shortDescription.join.any (fun s => (jsTrim s).length > 200) then .error "String must contain at most 200 character(s)"
  else if raw.parentId.join.any (fun p => !isCuid p) then .error "Invalid cuid"
  else if (raw.images.map jsTrim).any (fun s => s.length = 0) then .error "Image URL or path is required"
  else if (jsSetList (raw.images.map jsTrim)).length = 0 then .error "At least one image is required"
  else
    .ok ⟨jsTrim raw.name, raw.durationMin.getD 30, raw.priceCents,
         jsTrim raw.description, raw.shortDescription.map (fun v => v.map jsTrim),
         raw.active, raw.parentId, jsSetList (raw.images.map jsTrim)⟩

/-- The `POST /api/services` handler: build the `data` object (always
including a `shortDescription` key, `payload.shortDescription ?? null`),
attempt the create, and when the thrown message contains
``"Unknown argument `shortDescription`"`` retry once with the same data
minus that key; any other failure is answered with the 400 branch. -/
def postService (db : ServiceDb) (newId : String) (raw : ServiceCreateRaw) :
    ServiceDb × Except ErrorResponse ServiceRow :=
  match parseServiceCreate raw with
  | .error _ => (db, .error ⟨400, "Unable to create service"⟩)
  | .ok payload =>
    let data : ServiceData :=
      { name := some payload.name
        description := some payload.description
        durationMin := some payload.durationMin
        priceCents := some (payload.priceCents.getD 0)
        shortDescription := some (payload.shortDescription.bind id)
        priority := none
        active := some (payload.active.getD true)
        parent :=
          match payload.parentId with
          | some (some p) => some (.connect p)
          | _ => none
        images := some payload.images }
    match prismaServiceCreate db newId data with
    | .ok (db1, row) => (db1, .ok row)
    | .error msg =>
      if strContains msg "Unknown argument `shortDescription`" then
        match prismaServiceCreate db newId { data with shortDescription := none } with
        | .ok (db1, row) => (db1, .ok row)
        | .error _ => (db, .error ⟨400, "Unable to create service"⟩)
      else (db, .error ⟨400, "Unable to create service"⟩)

/-- The JSON body of `PATCH /api/services/[id]` (`updateSchema`'s input
shape in `src/app/api/services/[id]/route.ts`). -/
structure ServicePatchRaw where
  name : Option String
  description : Option String
  shortDescription : Option (Option String)
  priority : Option (Option Int)
  active : Option Bool
  parentId : Option (Option String)
  images : Option (List String)
deriving DecidableEq, Repr

/-- `updateSchema.parse` for the service PATCH: per-field rules as in
`parseServiceCreate`, every field optional. -/
def parseServicePatch (raw : ServicePatchRaw) : Except String ServicePatchRaw :=
  if (raw.name.map jsTrim).any (fun s => s.length = 0) then .error "String must contain at least 1 character(s)"
  else if (raw.description.map jsTrim).any (fun s => s.length = 0) then .error "Description is required"
  else if raw.shortDescription.join.any (fun s => (jsTrim s).length > 200) then .error "String must contain at most 200 character(s)"
  else if raw.priority.join.any (fun n => ¬(0 ≤ n ∧ n ≤ 1000)) then .error "Invalid priority"
  else if raw.parentId.join.any (fun p => !isCuid p) then .error "Invalid cuid"
  else if (raw.images.map (fun l => l.map jsTrim)).any (fun l => l.any (fun s => s.length = 0)) then .error "Image URL or path is required"
  else if (raw.images.map (fun l => l.map jsTrim)).any (fun l => (jsSetList l).length = 0) then .error "At least one image is required"
  else
    .ok { raw with
          name := raw.name.map jsTrim
          description := raw.description.map jsTrim
          shortDescription := raw.shortDescription.map (fun v => v.map jsTrim)
          images := (raw.images.map (fun l => l.map jsTrim)).map jsSetList }

/-- The `PATCH /api/services/[id]` handler: reject a truthy `parentId`
equal to the route id with `400 "A service cannot be its own parent"`
before touching the database; otherwise build the `data` object from the
supplied keys, attempt the update, and when the thrown message contains
``"Unknown argument `shortDescription`"`` or ``"Unknown argument
`priority`"`` retry once with both keys deleted from the data. -/
def patchService (db : ServiceDb) (id : String) (raw : ServicePatchRaw) :
    ServiceDb × Except ErrorResponse ServiceRow :=
  match parseServicePatch raw with
  | .error _ => (db, .error ⟨400, "Unable to update service"⟩)
  | .ok payload =>
    if payload.parentId.join.any (fun p => !p.isEmpty ∧ p = id) then
      (db, .error ⟨400, "A service cannot be its own parent"⟩)
    else
      let data : ServiceData :=
        { name := payload.name
          description := payload.description
          durationMin := none
          priceCents := none
          shortDescription := payload.shortDescription
          priority := payload.priority
          active := payload.active
          parent :=
            match payload.parentId with
            | none => none
            | some (some p) => some (.connect p)
            | some none => some .disconnect
          images := payload.images }
      match prismaServiceUpdate db id data with
      | .ok (db1, row) => (db1, .ok row)
      | .error msg =>
        if strContains msg "Unknown argument `shortDescription`" ∨
            strContains msg "Unknown argument `priority`" then
          match prismaServiceUpdate db id
              { data with shortDescription := none, priority := none } with
          | .ok (db1, row) => (db1, .ok row)
          | .error _ => (db, .error ⟨400, "Unable to update service"⟩)
        else (db, .error ⟨400, "Unable to update service"⟩)

/-- `MAX_FILE_SIZE = 4 * 1024 * 1024` from `src/app/api/uploads/route.ts`. -/
def MAX_FILE_SIZE : Nat := 4 * 1024 * 1024

/-- The `ALLOWED_MIME` set from the uploads route. -/
def ALLOWED_MIME : List String :=
  ["image/jpeg", "image/png", "image/webp", "image/gif", "image/svg+xml"]

/-- Runtime environment probed by `saveFile`: whether the `@vercel/blob`
module loads and exposes `put`, and whether the serverless env vars are
set (choosing tmp dir vs `public/uploads`). -/
structure UploadEnv where
  blobAvailable : Bool
  serverless : Bool
deriving DecidableEq, Repr

/-- One write to a storage backend performed by `saveFile`. -/
inductive StorageWrite where
  | blob (key : String)
  | disk (dir : String) (filename : String)
deriving DecidableEq, Repr

/-- `saveFile` from `src/app/api/uploads/route.ts`, with the buffer
abstracted to its byte length and the generated unique name passed in:
returns the resulting URL or the thrown message, paired with the list of
storage writes performed. The size check runs first, the MIME check second,
both before any storage call. -/
def saveFile (env : UploadEnv) (size : Nat) (mime : String) (filename : String) :
    Except String String × List StorageWrite :=
  if size > MAX_FILE_SIZE then
    (.error "File too large", [])
  else if !ALLOWED_MIME.contains mime then
    (.error "Unsupported file type", [])
  else if env.blobAvailable then
    (.ok ("https://blob.example/uploads/" ++ filename),
     [.blob ("uploads/" ++ filename)])
  else
    let dir := if env.serverless then "/tmp/uploads" else "public/uploads"
    (.ok ("/uploads/" ++ filename), [.disk dir filename])

/-- Query parameters of `GET /api/appointments` (absent parameter =
`none`; `searchParams.get` yields a possibly empty string otherwise). -/
structure ListParams where
  status : Option String
  fromParam : Option Int
  toParam : Option Int
  patientId : Option String
deriving DecidableEq, Repr

/-- Insert into a list sorted by descending date (model of the SQL
`ORDER BY date DESC` that `orderBy: { date: 'desc' }` compiles to). -/
def insertByDateDesc (r : AppointmentRow) : List AppointmentRow → List AppointmentRow
  | [] => [r]
  | x :: xs => if x.date ≥ r.date then x :: insertByDateDesc r xs else r :: x :: xs

/-- Sort appointment rows newest-first by date. -/
def sortByDateDesc (l : List AppointmentRow) : List AppointmentRow :=
  l.foldr insertByDateDesc []

/-- The `GET /api/appointments` handler: a `status` parameter is kept only
when truthy and a member of `STATUS_ENUM`, otherwise the filter is
`undefined` (no constraint); `patientId || undefined` likewise; `from`/`to`
become inclusive date bounds. The matching rows are returned newest-first. -/
def getAppointments (db : List AppointmentRow) (params : ListParams) :
    List AppointmentRow :=
  let status : Option Status :=
    match params.status with
    | some s => if !s.isEmpty ∧ STATUS_ENUM.contains s then toStatus s else none
    | none => none
  let pid : Option String := params.patientId.bind (fun s => if s.isEmpty then none else some s)
  sortByDateDesc (db.filter (fun r =>
    (match status with | none => true | some st => decide (r.status = st)) &&
    (match pid with | none => true | some p => decide (r.patientId = some p)) &&
    (match params.fromParam with | none => true | some f => decide (f ≤ r.date)) &&
    (match params.toParam with | none => true | some t => decide (r.date ≤ t))))

/-! ## Concrete inputs used by witnesses and counterexamples -/

/-- Concrete input for the C1 witness: both a patient id and a guest name
supplied. -/
def c1raw : CreateAppointmentRaw :=
  ⟨some "p1", some " Guest A ", "svc1", none, 1735725600, none, none⟩

/-- Concrete input for the C6 witness: the spec's guest booking scenario. -/
def c6raw : CreateAppointmentRaw :=
  ⟨none, some "Guest A", "svc1", none, 1735725600, none, none⟩

/-- Concrete public booking for the C6 witness. -/
def c6braw : BookingRaw := ⟨none, some "Guest A", "svc1", 1735725600, none⟩

/-- Concrete inputs for the C10 witness. -/
def c10db : List AppointmentRow :=
  [⟨some "p1", none, "svc1", none, 5, .BOOKED, none⟩,
   ⟨none, some "Guest", "svc2", none, 9, .CANCELLED, none⟩]

/-- C10 query with an invalid status value. -/
def c10params : ListParams := ⟨some "REJECTED", none, none, none⟩

/-- Status code of an error response, `none` for a success. -/
def respStatus : Except ErrorResponse ServiceRow → Option Nat
  | .error e => some e.status
  | .ok _ => none

/-- C4 counterexample: an appointment holding the guest name "Old". -/
def c4row : AppointmentRow := ⟨none, some "Old", "svc1", none, 0, .BOOKED, none⟩

/-- C4 counterexample: `patientId` supplied as the empty string together
with a new guest name. -/
def c4raw : PatchAppointmentRaw :=
  ⟨some (some ""), some (some "New"), none, none, none, none, none⟩

/-- C4 witness input: a non-empty `patientId` supplied alone. -/
def c4wraw : PatchAppointmentRaw :=
  ⟨some (some "p2"), none, none, none, none, none, none⟩

/-- C5 inputs: one stored user. -/
def c5db : List UserRow := [⟨"a@b.co", none, "ADMIN", "hash0"⟩]

/-- C5 inputs: a create request reusing the stored email. -/
def c5payload : CreateUserPayload := ⟨"a@b.co", none, none, "secret1"⟩

/-- C7 inputs: one service whose id is a cuid. -/
def c7db : ServiceDb :=
  ⟨[⟨"cservice12", "Skin", "Desc", none, none, 30, 0, true, none, ["img1"]⟩], true, true⟩

/-- C7 inputs: a PATCH naming the service itself as parent. -/
def c7raw : ServicePatchRaw :=
  ⟨none, none, none, none, none, some (some "cservice12"), none⟩

/-- C9 inputs: an empty service table whose Prisma client pre-dates both
the `shortDescription` and the `priority` columns. -/
def c9db : ServiceDb := ⟨[], false, false⟩

/-- C9 inputs: a valid create payload that supplies a `shortDescription`. -/
def c9createRaw : ServiceCreateRaw :=
  ⟨"Skin", none, none, "Desc", some (some "Short"), none, none, ["img1"]⟩

/-- C9 inputs: a service table with one row, client pre-dating both
optional columns. -/
def c9db2 : ServiceDb :=
  ⟨[⟨"cservice12", "Skin", "Desc", none, none, 30, 0, true, none, ["img1"]⟩], false, false⟩

/-- C9 inputs: a PATCH that supplies a `priority` (and a new name). -/
def c9patchRaw : ServicePatchRaw :=
  ⟨some "NewName", none, none, some (some 5), none, none, none⟩

/-- C2 inputs: one patient using services s1 and s2; services s1–s3 exist. -/
def c2db : PatientDb :=
  ⟨[⟨"p1", "Jane", "Doe", none, none, none, none⟩],
   ["s1", "s2", "s3"],
   [⟨"p1", "s1", 1⟩, ⟨"p1", "s2", 2⟩]⟩

/-- C2 inputs: an update carrying `serviceIds = ["s2","s3"]`. -/
def c2payload : PatientUpdatePayload :=
  ⟨none, none, none, none, none, none, some ["s2", "s3"]⟩

/-- The database expected after the C2 update: the s1 row deleted, the s2
row kept with its original timestamp, an s3 row stamped with the
transaction time 99. -/
def c2dbAfter : PatientDb :=
  ⟨[⟨"p1", "Jane", "Doe", none, none, none, none⟩],
   ["s1", "s2", "s3"],
   [⟨"p1", "s2", 2⟩, ⟨"p1", "s3", 99⟩]⟩

/-- C3 inputs: one patient using service s1; only service s1 exists. -/
def c3db : PatientDb :=
  ⟨[⟨"p1", "Jane", "Doe", none, none, none, none⟩], ["s1"], [⟨"p1", "s1", 1⟩]⟩

/-- C3 inputs: an update whose `serviceIds` names a non-existent service,
making the `createMany` step fail mid-transaction after the patient-field
update step succeeded. -/
def c3payload : PatientUpdatePayload :=
  ⟨some "Janet", none, none, none, none, none, some ["s2"]⟩

/-! ## Helper lemmas -/

theorem dropWhile_rdropWhile_comm (p : α → Bool) (l : List α) :
    (l.rdropWhile p).dropWhile p = (l.dropWhile p).rdropWhile p := by
  induction l using List.reverseRecOn with
  | nil => simp
  | append_singleton xs x ih =>
    by_cases hx : p x
    · rw [List.rdropWhile_concat_pos p xs x hx, ih, List.dropWhile_append]
      by_cases hxs : (xs.dropWhile p).isEmpty
      · rw [if_pos hxs]
        simp only [List.isEmpty_iff] at hxs
        simp [hxs, List.dropWhile_cons, hx]
      · rw [if_neg hxs, List.rdropWhile_concat_pos p _ x hx]
    · rw [List.rdropWhile_concat_neg p xs x hx, List.dropWhile_append]
      by_cases hxs : (xs.dropWhile p).isEmpty
      · rw [if_pos hxs]
        simp [List.dropWhile_cons, hx, List.rdropWhile_singleton]
      · rw [if_neg hxs, List.rdropWhile_concat_neg p _ x hx]

theorem jsTrim_data (s : String) :
    (jsTrim s).data = (s.data.dropWhile Char.isWhitespace).rdropWhile Char.isWhitespace := rfl

/-- Trimming is idempotent, so the handler-level re-trim of an
already-trimmed zod output is the identity. -/
theorem jsTrim_idem (s : String) : jsTrim (jsTrim s) = jsTrim s := by
  have h2 : (jsTrim (jsTrim s)).data = (jsTrim s).data := by
    rw [jsTrim_data (jsTrim s), jsTrim_data s,
      dropWhile_rdropWhile_comm, List.dropWhile_idempotent, List.rdropWhile_idempotent]
  exact String.ext h2

/-- Inversion for `parseCreateAppointment`: a successful parse passes the
field checks and the `.refine`. -/
theorem parseCreateAppointment_ok {raw : CreateAppointmentRaw}
    {p : CreateAppointmentParsed} (h : parseCreateAppointment raw = .ok p) :
    p.patientId = raw.patientId ∧ p.patientName = raw.patientName.map jsTrim ∧
    (raw.patientId.isSome ∨ (raw.patientName.map jsTrim).isSome) ∧
    (∀ t, raw.patientName.map jsTrim = some t → t.length ≠ 0) := by
  unfold parseCreateAppointment at h
  repeat' split at h
  all_goals (try exact Except.noConfusion h)
  all_goals cases h
  all_goals refine ⟨rfl, rfl, ?_, ?_⟩
  all_goals try (intro t ht hc)
  all_goals cases hpi : raw.patientId <;> cases hpn : raw.patientName <;> simp_all

/-! ## C1 -/

/-- **C1**: for every `POST /api/appointments` request, exactly one of
`patientId` / guest name is stored: a created row has a `patientId` and a
`NULL` guest name or no `patientId` and a guest name; when both
`patientId` and `patientName` are supplied the row keeps `patientId` and no
`customPatientName`; when the patient id is absent and the patient name is
absent or empty after trimming, the request fails validation and no row is
produced. -/
theorem c1_create_exactly_one_patient_identity (raw : CreateAppointmentRaw) :
    (∀ row, postAppointment raw = .ok row →
      (row.patientId.isSome ∧ row.customPatientName = none) ∨
      (row.patientId = none ∧ row.customPatientName.isSome)) ∧
    (raw.patientId.isSome → raw.patientName.isSome →
      ∀ row, postAppointment raw = .ok row →
        row.patientId = raw.patientId ∧ row.customPatientName = none) ∧
    (raw.patientId = none → sanitizePatientName raw.patientName = none →
      ∃ e, postAppointment raw = .error e) := by
  refine ⟨?_, ?_, ?_⟩
  · intro row h
    unfold postAppointment at h
    cases hp : parseCreateAppointment raw with
    | error e => rw [hp] at h; exact absurd h (by simp)
    | ok payload =>
      rw [hp] at h
      obtain ⟨hpid, hname, hone, hlen⟩ := parseCreateAppointment_ok hp
      cases h
      cases hcase : payload.patientId with
      | some v => left; simp [hcase]
      | none =>
        right
        have hid : raw.patientId = none := by rw [← hpid, hcase]
        rcases hone with hs | hs
        · rw [hid] at hs; simp at hs
        · rcases Option.isSome_iff_exists.mp hs with ⟨t, ht⟩
          rcases hn : raw.patientName with _ | s
          · rw [hn] at ht; simp at ht
          · have hts : t = jsTrim s := by
              rw [hn] at ht; simpa using ht.symm
            have htlen : t.length ≠ 0 := hlen t ht
            refine ⟨by simp [hcase], ?_⟩
            simp only [hcase, Option.isSome_none, Bool.false_eq_true,
              if_false, hname, hn, Option.map_some']
            simp [sanitizePatientName, jsTrim_idem, hts ▸ htlen]
  · intro hpid _ row h
    unfold postAppointment at h
    cases hp : parseCreateAppointment raw with
    | error e => rw [hp] at h; exact absurd h (by simp)
    | ok payload =>
      rw [hp] at h
      obtain ⟨hpe, _, _, _⟩ := parseCreateAppointment_ok hp
      cases h
      constructor
      · simpa using hpe
      · simp [hpe, hpid]
  · intro h1 h2
    have hperr : ∃ e, parseCreateAppointment raw = .error e := by
      unfold parseCreateAppointment
      repeat' split
      all_goals (try exact ⟨_, rfl⟩)
      all_goals rename_i hboth
      all_goals exfalso
      all_goals apply hboth
      all_goals rcases hn : raw.patientName with _ | s
      all_goals simp_all [sanitizePatientName]
    obtain ⟨e, he⟩ := hperr
    exact ⟨e, by unfold postAppointment; rw [he]⟩

/-- Witness for C1 at `c1raw`: the create succeeds, keeps the patient id
and stores no guest name. -/
theorem c1_create_exactly_one_patient_identity_witness :
    (∃ row, postAppointment c1raw = .ok row ∧
      row.patientId = c1raw.patientId ∧ row.customPatientName = none) := by
  obtain ⟨-, h2, -⟩ := c1_create_exactly_one_patient_identity c1raw
  refine ⟨⟨some "p1", none, "svc1", none, 1735725600, .BOOKED, none⟩, ?_, ?_⟩
  · rfl
  · exact h2 (by decide) (by decide) _ rfl

/-! ## C6 -/

/-- A successful `createSchema.parse` decodes `status` directly from the
raw string field. -/
theorem parseCreateAppointment_ok_status {raw : CreateAppointmentRaw}
    {p : CreateAppointmentParsed} (h : parseCreateAppointment raw = .ok p) :
    p.status = raw.status.bind toStatus := by
  unfold parseCreateAppointment at h
  repeat' split at h
  all_goals (try exact Except.noConfusion h)
  all_goals cases h
  all_goals simp_all

/-- Inversion for `parseBooking`. -/
theorem parseBooking_ok {raw b : BookingRaw} (h : parseBooking raw = .ok b) :
    b.patientId = raw.patientId ∧ b.patientName = raw.patientName.map jsTrim ∧
    (∀ t, raw.patientName.map jsTrim = some t → t.length ≠ 0) := by
  unfold parseBooking at h
  repeat' split at h
  all_goals (try exact Except.noConfusion h)
  all_goals cases h
  all_goals refine ⟨rfl, rfl, ?_⟩
  all_goals intro t ht hc
  all_goals cases hpn : raw.patientName <;> simp_all

/-- **C6**: an admin create with `status` omitted stores `BOOKED`; a public
booking always stores `BOOKED` and never a staff assignment; on both
endpoints a guest-only create stores no `patientId` and the trimmed
supplied name as `customPatientName`. -/
theorem c6_status_defaults_to_booked (raw : CreateAppointmentRaw) (braw : BookingRaw) :
    (∀ row, raw.status = none → postAppointment raw = .ok row →
      row.status = .BOOKED) ∧
    (∀ row, postPublicBooking braw = .ok row →
      row.status = .BOOKED ∧ row.staffId = none) ∧
    (∀ row n, raw.patientId = none → raw.patientName = some n →
      postAppointment raw = .ok row →
      row.patientId = none ∧ row.customPatientName = some (jsTrim n)) ∧
    (∀ row n, braw.patientId = none → braw.patientName = some n →
      postPublicBooking braw = .ok row →
      row.patientId = none ∧ row.customPatientName = some (jsTrim n)) := by
  refine ⟨?_, ?_, ?_, ?_⟩
  · intro row hst h
    unfold postAppointment at h
    cases hp : parseCreateAppointment raw with
    | error e => rw [hp] at h; exact Except.noConfusion h
    | ok payload =>
      rw [hp] at h
      have hs := parseCreateAppointment_ok_status hp
      cases h
      simp [hs, hst]
  · intro row h
    unfold postPublicBooking at h
    cases hp : parseBooking braw with
    | error e => rw [hp] at h; exact Except.noConfusion h
    | ok payload =>
      rw [hp] at h
      cases h
      exact ⟨rfl, rfl⟩
  · intro row n hpid hname h
    unfold postAppointment at h
    cases hp : parseCreateAppointment raw with
    | error e => rw [hp] at h; exact Except.noConfusion h
    | ok payload =>
      rw [hp] at h
      obtain ⟨hpe, hne, _, hlen⟩ := parseCreateAppointment_ok hp
      cases h
      have hmap : raw.patientName.map jsTrim = some (jsTrim n) := by simp [hname]
      have htlen : (jsTrim n).length ≠ 0 := hlen _ hmap
      refine ⟨by simp [hpe, hpid], ?_⟩
      simp only [hpe, hpid, Option.isSome_none, Bool.false_eq_true, if_false]
      simp [sanitizePatientName, hne, hmap, jsTrim_idem, htlen]
  · intro row n hpid hname h
    unfold postPublicBooking at h
    cases hp : parseBooking braw with
    | error e => rw [hp] at h; exact Except.noConfusion h
    | ok payload =>
      rw [hp] at h
      obtain ⟨hpe, hne, hlen⟩ := parseBooking_ok hp
      cases h
      have hmap : braw.patientName.map jsTrim = some (jsTrim n) := by simp [hname]
      have htlen : (jsTrim n).length ≠ 0 := hlen _ hmap
      refine ⟨by simp [hpe, hpid], ?_⟩
      simp only [hpe, hpid, Option.isSome_none, Bool.false_eq_true, if_false]
      simp [sanitizePatientName, hne, hmap, jsTrim_idem, htlen]

/-- Witness for C6 at `c6raw`/`c6braw`: status defaults to `BOOKED`,
`patientId` stays `NULL`, the guest name "Guest A" is stored. -/
theorem c6_status_defaults_to_booked_witness :
    (∃ row, postAppointment c6raw = .ok row ∧ row.status = .BOOKED ∧
      row.patientId = none ∧ row.customPatientName = some "Guest A") ∧
    (∃ row, postPublicBooking c6braw = .ok row ∧ row.status = .BOOKED ∧
      row.staffId = none) := by
  obtain ⟨h1, h2, h3, -⟩ := c6_status_defaults_to_booked c6raw c6braw
  constructor
  · refine ⟨⟨none, some "Guest A", "svc1", none, 1735725600, .BOOKED, none⟩, rfl, ?_, ?_⟩
    · exact h1 _ rfl rfl
    · have := h3 _ "Guest A" rfl rfl rfl
      exact this
  · refine ⟨⟨none, some "Guest A", "svc1", none, 1735725600, .BOOKED, none⟩, rfl, ?_⟩
    exact h2 _ rfl

/-! ## C10 -/

/-- **C10**: a `GET /api/appointments` whose `status` parameter is not one
of the four enum values returns exactly the listing produced with no status
parameter; the invalid value is ignored rather than rejected. -/
theorem c10_invalid_status_filter_ignored (db : List AppointmentRow)
    (params : ListParams) (s : String) (hs : params.status = some s)
    (hmem : s ∉ STATUS_ENUM) :
    getAppointments db params = getAppointments db { params with status := none } := by
  unfold getAppointments
  simp only [hs]
  simp [hmem]

/-- Witness for C10: the invalid value "REJECTED" yields the same listing
as no status filter. -/
theorem c10_invalid_status_filter_ignored_witness :
    "REJECTED" ∉ STATUS_ENUM ∧
      getAppointments c10db c10params =
        getAppointments c10db { c10params with status := none } :=
  ⟨by decide,
   c10_invalid_status_filter_ignored c10db c10params "REJECTED" rfl (by decide)⟩

/-! ## C4 -/

/-- Re-trimming an already zod-trimmed optional name changes nothing. -/
theorem sanitizePatientName_map_jsTrim (v : Option String) :
    sanitizePatientName (v.map jsTrim) = sanitizePatientName v := by
  cases v with
  | none => rfl
  | some s => simp [sanitizePatientName, jsTrim_idem]

/-- Inversion for `parsePatchAppointment`. -/
theorem parsePatchAppointment_ok {raw : PatchAppointmentRaw}
    {p : PatchAppointmentParsed} (h : parsePatchAppointment raw = .ok p) :
    p.patientId = raw.patientId ∧
    p.patientName = raw.patientName.map (fun v => v.map jsTrim) ∧
    (∀ s, raw.patientId = some (some s) → s.length ≠ 0) := by
  unfold parsePatchAppointment at h
  repeat' split at h
  all_goals (try exact Except.noConfusion h)
  all_goals cases h
  all_goals refine ⟨rfl, rfl, ?_⟩
  all_goals intro s hs hc
  all_goals simp_all

/-- **C4 (amended)**: on `PATCH /api/appointments/[id]`, a supplied
non-empty `patientId` clears the stored guest name; a `patientId` supplied
as null falls back to `patientName` (trimmed, empty collapsing to null)
when that is supplied and leaves the guest name untouched otherwise; a
`patientId` supplied as the empty string fails schema validation with the
400 branch, leaving the row unchanged. -/
theorem c4_patch_guest_name_rules (row : AppointmentRow) (raw : PatchAppointmentRaw) :
    (∀ s out, raw.patientId = some (some s) → s ≠ "" →
      patchAppointment row raw = .ok out → out.customPatientName = none) ∧
    (∀ out, raw.patientId = some none → patchAppointment row raw = .ok out →
      (raw.patientName = none → out.customPatientName = row.customPatientName) ∧
      (∀ v, raw.patientName = some v →
        out.customPatientName = sanitizePatientName v)) ∧
    (raw.patientId = some (some "") →
      patchAppointment row raw = .error "Unable to update appointment" ∧
      patchAppointmentOutcome row raw = row) := by
  refine ⟨?_, ?_, ?_⟩
  · intro s out hpid hs h
    unfold patchAppointment at h
    cases hp : parsePatchAppointment raw with
    | error e => rw [hp] at h; exact Except.noConfusion h
    | ok p =>
      rw [hp] at h
      obtain ⟨hpe, _, _⟩ := parsePatchAppointment_ok hp
      cases h
      have hse : s.isEmpty = false := by
        cases he : s.isEmpty
        · rfl
        · exact absurd ((String.isEmpty_iff s).mp he) hs
      simp [applyPatchAppointment, hpe, hpid, hse]
  · intro out hpid h
    unfold patchAppointment at h
    cases hp : parsePatchAppointment raw with
    | error e => rw [hp] at h; exact Except.noConfusion h
    | ok p =>
      rw [hp] at h
      obtain ⟨hpe, hpn, _⟩ := parsePatchAppointment_ok hp
      cases h
      constructor
      · intro hname
        simp [applyPatchAppointment, hpe, hpid, hpn, hname]
      · intro v hname
        simp [applyPatchAppointment, hpe, hpid, hpn, hname,
          sanitizePatientName_map_jsTrim]
  · intro hpid
    have hperr : parsePatchAppointment raw = .error "String must contain at least 1 character(s)" := by
      unfold parsePatchAppointment
      have : (raw.patientId.bind id).any (fun s => s.length = 0) = true := by
        simp [hpid]
      rw [if_pos this]
    constructor
    · unfold patchAppointment
      rw [hperr]
    · unfold patchAppointmentOutcome patchAppointment
      rw [hperr]

/-- C4 counterexample to the claim as stated: with `patientId` supplied as
the empty string and `patientName` supplied as "New", the request is
rejected by validation, so the stored guest name stays "Old" instead of
being set from `patientName`. -/
theorem c4_claim_counterexample :
    c4raw.patientId = some (some "") ∧ c4raw.patientName = some (some "New") ∧
    patchAppointment c4row c4raw = .error "Unable to update appointment" ∧
    (patchAppointmentOutcome c4row c4raw).customPatientName = some "Old" ∧
    ¬(patchAppointmentOutcome c4row c4raw).customPatientName = some "New" :=
  ⟨rfl, rfl, rfl, rfl, by decide⟩

/-- Witness for C4 at `c4row`/`c4wraw`: a non-empty `patientId` clears the
guest name. -/
theorem c4_patch_guest_name_rules_witness :
    ∃ out, patchAppointment c4row c4wraw = .ok out ∧
      out.customPatientName = none := by
  obtain ⟨h1, -, -⟩ := c4_patch_guest_name_rules c4row c4wraw
  exact ⟨⟨some "p2", none, "svc1", none, 0, .BOOKED, none⟩, rfl,
    h1 "p2" _ rfl (by decide) rfl⟩

/-! ## C5 -/

/-- C5 counterexample to the claim as stated: `POST /api/users` with an
email that already exists answers `400 "Unable to create user"`, not
`409 "Email already in use."` — the users route has no unique-constraint
translation. -/
theorem c5_claim_counterexample :
    (∃ u ∈ c5db, u.email = c5payload.email) ∧
    (postUser (fun s => s) c5db c5payload).2 = .failed ⟨400, "Unable to create user"⟩ ∧
    ¬(postUser (fun s => s) c5db c5payload).2 = .failed ⟨409, "Email already in use."⟩ :=
  ⟨⟨⟨"a@b.co", none, "ADMIN", "hash0"⟩, by decide, rfl⟩, rfl, by decide⟩

/-- **C5 (amended)**: creating a user whose email already exists makes
`prisma.user.create` throw P2002, which the users route's catch-all maps to
`400 "Unable to create user"`, leaving the user table unchanged. -/
theorem c5_duplicate_email_generic_error (hash : String → String)
    (db : List UserRow) (p : CreateUserPayload)
    (h : ∃ u ∈ db, u.email = p.email) :
    postUser hash db p = (db, .failed ⟨400, "Unable to create user"⟩) := by
  obtain ⟨u, hu, he⟩ := h
  have hany : db.any (fun r => r.email = p.email) = true := by
    simp only [List.any_eq_true]
    exact ⟨u, hu, by simp [he]⟩
  unfold postUser prismaUserCreate
  simp [hany]

/-- Witness for the amended C5 at `c5db`/`c5payload`. -/
theorem c5_duplicate_email_generic_error_witness :
    (∃ u ∈ c5db, u.email = c5payload.email) ∧
    postUser (fun s => s) c5db c5payload
      = (c5db, .failed ⟨400, "Unable to create user"⟩) :=
  ⟨⟨⟨"a@b.co", none, "ADMIN", "hash0"⟩, by decide, rfl⟩,
   c5_duplicate_email_generic_error (fun s => s) c5db c5payload
     ⟨⟨"a@b.co", none, "ADMIN", "hash0"⟩, by decide, rfl⟩⟩

/-! ## C7 -/

/-- Inversion for `parseServicePatch`: the parsed `parentId` is the raw one
and any supplied non-null `parentId` passed the cuid check. -/
theorem parseServicePatch_ok {raw payload : ServicePatchRaw}
    (h : parseServicePatch raw = .ok payload) :
    payload.parentId = raw.parentId ∧
    (∀ q, raw.parentId = some (some q) → isCuid q = true) := by
  unfold parseServicePatch at h
  repeat' split at h
  all_goals (try exact Except.noConfusion h)
  all_goals cases h
  all_goals refine ⟨rfl, ?_⟩
  all_goals intro q hq
  all_goals simp_all

/-- A cuid is a non-empty string. -/
theorem isCuid_ne_empty {s : String} (h : isCuid s = true) : s.isEmpty = false := by
  cases he : s.isEmpty
  · rfl
  · exfalso
    have hs : s = "" := (String.isEmpty_iff s).mp he
    rw [hs] at h
    exact absurd h (by decide)

/-- **C7**: a `PATCH /api/services/[id]` whose `parentId` equals the
route's own id is answered with a 400 and the service table is left
exactly as it was. -/
theorem c7_service_own_parent_rejected (db : ServiceDb) (id : String)
    (raw : ServicePatchRaw) (h : raw.parentId = some (some id)) :
    (patchService db id raw).1 = db ∧
    respStatus (patchService db id raw).2 = some 400 := by
  unfold patchService
  cases hp : parseServicePatch raw with
  | error e => simp [respStatus]
  | ok payload =>
    obtain ⟨hpe, hcuid⟩ := parseServicePatch_ok hp
    have hq : isCuid id = true := hcuid id h
    have hne : id.isEmpty = false := isCuid_ne_empty hq
    dsimp only
    rw [hpe, h]
    simp [Option.join, hne, respStatus]

/-- Witness for C7 at `c7db`/`c7raw`: the self-parent PATCH returns 400
and leaves the table unchanged. -/
theorem c7_service_own_parent_rejected_witness :
    c7raw.parentId = some (some "cservice12") ∧
    (patchService c7db "cservice12" c7raw).1 = c7db ∧
    respStatus (patchService c7db "cservice12" c7raw).2 = some 400 :=
  ⟨rfl, (c7_service_own_parent_rejected c7db "cservice12" c7raw rfl).1,
    (c7_service_own_parent_rejected c7db "cservice12" c7raw rfl).2⟩

/-! ## C8 -/

/-- **C8**: an upload larger than the 4MB limit is rejected with
"File too large" and no storage backend (blob or disk) is written; the
size check precedes every storage call. -/
theorem c8_oversized_upload_rejected (env : UploadEnv) (size : Nat)
    (mime filename : String) (h : size > MAX_FILE_SIZE) :
    saveFile env size mime filename = (.error "File too large", []) := by
  unfold saveFile
  rw [if_pos h]

/-- Witness for C8: a 5MB image upload is rejected with no writes. -/
theorem c8_oversized_upload_rejected_witness :
    5 * 1024 * 1024 > MAX_FILE_SIZE ∧
    saveFile ⟨true, false⟩ (5 * 1024 * 1024) "image/png" "a.png"
      = (.error "File too large", []) :=
  ⟨by decide,
   c8_oversized_upload_rejected ⟨true, false⟩ (5 * 1024 * 1024) "image/png" "a.png"
     (by decide)⟩

/-! ## C9 -/

/-- **C9**: when the Prisma client pre-dates the `shortDescription` /
`priority` columns, `POST /api/services` and `PATCH /api/services/[id]`
match the thrown "Unknown argument" message, retry without those fields and
report success — the returned record silently lacks the
`shortDescription` (resp. `priority`) the client sent. -/
theorem c9_fallback_silently_drops_fields :
    ((postService c9db "cnew1234567" c9createRaw).2
        = .ok ⟨"cnew1234567", "Skin", "Desc", none, none, 30, 0, true, none, ["img1"]⟩ ∧
      c9createRaw.shortDescription = some (some "Short")) ∧
    ((patchService c9db2 "cservice12" c9patchRaw).2
        = .ok ⟨"cservice12", "NewName", "Desc", none, none, 30, 0, true, none, ["img1"]⟩ ∧
      c9patchRaw.priority = some (some 5)) :=
  ⟨⟨rfl, rfl⟩, ⟨rfl, rfl⟩⟩

/-! ## C2 and C3 -/

/-- `List.contains` agrees with membership for strings. -/
theorem contains_eq_true_iff (l : List String) (x : String) :
    l.contains x = true ↔ x ∈ l := by simp

/-- Membership in the JavaScript-set dedup fold. -/
theorem mem_dedupFoldl (l acc : List String) (x : String) :
    x ∈ l.foldl (fun a y => if a.contains y then a else y :: a) acc ↔
      x ∈ acc ∨ x ∈ l := by
  induction l generalizing acc with
  | nil => simp
  | cons a t ih =>
    simp only [List.foldl_cons]
    rw [ih]
    by_cases hc : acc.contains a = true
    · have ha : a ∈ acc := by simpa using hc
      rw [if_pos hc]
      simp only [List.mem_cons]
      constructor
      · rintro (h | h)
        · exact Or.inl h
        · exact Or.inr (Or.inr h)
      · rintro (h | rfl | h)
        · exact Or.inl h
        · exact Or.inl ha
        · exact Or.inr h
    · rw [if_neg hc]
      simp only [List.mem_cons]
      constructor
      · rintro ((rfl | h2) | h)
        · exact Or.inr (Or.inl rfl)
        · exact Or.inl h2
        · exact Or.inr (Or.inr h)
      · rintro (h | rfl | h)
        · exact Or.inl (Or.inr h)
        · exact Or.inl (Or.inl rfl)
        · exact Or.inr h

/-- `[...new Set(l)]` has the same members as `l`. -/
theorem mem_jsSetList (l : List String) (x : String) :
    x ∈ jsSetList l ↔ x ∈ l := by
  unfold jsSetList
  rw [List.mem_reverse, mem_dedupFoldl]
  simp

/-- Membership in the existing-ids set. -/
theorem mem_existingIdsFor (db : PatientDb) (pid : String) (x : String) :
    x ∈ existingIdsFor db pid ↔
      ∃ u ∈ db.usages, u.patientId = pid ∧ u.serviceId = x := by
  unfold existingIdsFor
  rw [mem_jsSetList]
  simp only [List.mem_map, List.mem_filter, decide_eq_true_eq]
  constructor
  · rintro ⟨u, ⟨hu, hp⟩, hs⟩
    exact ⟨u, hu, hp, hs⟩
  · rintro ⟨u, hu, hp, hs⟩
    exact ⟨u, ⟨hu, hp⟩, hs⟩

/-- An id still in the incoming set is never scheduled for deletion. -/
theorem not_mem_toDeleteFor {db : PatientDb} {pid : String} {S : List String}
    {y : String} (hy : y ∈ S) : y ∉ toDeleteFor db pid S := by
  intro hmem
  rw [toDeleteFor, List.mem_filter] at hmem
  have hyy : y ∈ jsSetList S := (mem_jsSetList S y).mpr hy
  have := hmem.2
  rw [Bool.not_eq_true', ← Bool.not_eq_true] at this
  exact this ((contains_eq_true_iff _ _).mpr hyy)

/-- An id scheduled for deletion when its row's id left the incoming set. -/
theorem mem_toDeleteFor {db : PatientDb} {pid : String} {S : List String}
    {y : String} (hE : y ∈ existingIdsFor db pid) (hy : y ∉ S) :
    y ∈ toDeleteFor db pid S := by
  rw [toDeleteFor, List.mem_filter]
  refine ⟨hE, ?_⟩
  rw [Bool.not_eq_true']
  rw [← Bool.not_eq_true]
  intro hcon
  exact hy ((mem_jsSetList S y).mp ((contains_eq_true_iff _ _).mp hcon))

/-- Rows surviving the delete step: original rows whose id was not
scheduled for deletion (for this patient). -/
theorem mem_afterDeleteFor {db : PatientDb} {pid : String} {S : List String}
    {u : UsageRow} :
    u ∈ afterDeleteFor db pid S ↔
      u ∈ db.usages ∧ ¬(u.patientId = pid ∧ u.serviceId ∈ toDeleteFor db pid S) := by
  rw [afterDeleteFor, List.mem_filter]
  constructor
  · rintro ⟨hu, hpred⟩
    refine ⟨hu, ?_⟩
    rw [Bool.not_eq_true', decide_eq_false_iff_not] at hpred
    rintro ⟨hp, hd⟩
    exact hpred ⟨hp, (contains_eq_true_iff _ _).mpr hd⟩
  · rintro ⟨hu, hpred⟩
    refine ⟨hu, ?_⟩
    rw [Bool.not_eq_true', decide_eq_false_iff_not]
    rintro ⟨hp, hd⟩
    exact hpred ⟨hp, (contains_eq_true_iff _ _).mp hd⟩

/-- What a successful reconciliation does to the usage table: the
patient's usage ids afterwards are exactly the incoming ids, rows for ids
still present survive untouched, rows for dropped ids are gone. -/
theorem reconcileUsages_ok_spec {db : PatientDb} {pid : String}
    {S : List String} {now : Int} {db' : PatientDb}
    (h : reconcileUsages db pid S now = .ok db') :
    (∀ sid, (∃ u ∈ db'.usages, u.patientId = pid ∧ u.serviceId = sid) ↔ sid ∈ S) ∧
    (∀ u ∈ db.usages, u.patientId = pid → u.serviceId ∈ S → u ∈ db'.usages) ∧
    (∀ u ∈ db.usages, u.patientId = pid → u.serviceId ∉ S → u ∉ db'.usages) := by
  unfold reconcileUsages at h
  split at h
  · exact Except.noConfusion h
  · cases h
    refine ⟨?_, ?_, ?_⟩
    · intro sid
      constructor
      · rintro ⟨u, hu, hp, hs⟩
        simp only [List.mem_append, List.mem_map] at hu
        rcases hu with hA | ⟨i, hi, hrow⟩
        · obtain ⟨hu0, hpred⟩ := mem_afterDeleteFor.mp hA
          have hE : sid ∈ existingIdsFor db pid :=
            (mem_existingIdsFor db pid sid).mpr ⟨u, hu0, hp, hs⟩
          by_contra hns
          exact hpred ⟨hp, hs ▸ mem_toDeleteFor hE hns⟩
        · rw [List.mem_filter] at hi
          have hiC := hi.1
          rw [toCreateFor, List.mem_filter] at hiC
          have hiS : i ∈ S := (mem_jsSetList S i).mp hiC.1
          have hsi : u.serviceId = i := by rw [← hrow]
          rw [← hs, hsi]
          exact hiS
      · intro hsid
        by_cases hE : sid ∈ existingIdsFor db pid
        · obtain ⟨u, hu, hp, hs⟩ := (mem_existingIdsFor db pid sid).mp hE
          refine ⟨u, ?_, hp, hs⟩
          apply List.mem_append_left
          apply mem_afterDeleteFor.mpr
          refine ⟨hu, ?_⟩
          rintro ⟨-, hd⟩
          exact not_mem_toDeleteFor (hs ▸ hsid) hd
        · refine ⟨⟨pid, sid, now⟩, ?_, rfl, rfl⟩
          apply List.mem_append_right
          rw [List.mem_map]
          refine ⟨sid, ?_, rfl⟩
          rw [List.mem_filter]
          constructor
          · rw [toCreateFor, List.mem_filter]
            refine ⟨(mem_jsSetList S sid).mpr hsid, ?_⟩
            rw [Bool.not_eq_true', ← Bool.not_eq_true]
            intro hcon
            exact hE ((contains_eq_true_iff _ _).mp hcon)
          · rw [Bool.not_eq_true', List.any_eq_false]
            intro u huA
            simp only [decide_eq_true_eq]
            rintro ⟨hup, hus⟩
            obtain ⟨hu0, -⟩ := mem_afterDeleteFor.mp huA
            exact hE ((mem_existingIdsFor db pid sid).mpr ⟨u, hu0, hup, hus⟩)
    · intro u hu hp hs
      apply List.mem_append_left
      apply mem_afterDeleteFor.mpr
      refine ⟨hu, ?_⟩
      rintro ⟨-, hd⟩
      exact not_mem_toDeleteFor hs hd
    · intro u hu hp hs hmem
      simp only [List.mem_append, List.mem_map] at hmem
      rcases hmem with hA | ⟨i, hi, hrow⟩
      · obtain ⟨-, hpred⟩ := mem_afterDeleteFor.mp hA
        have hE : u.serviceId ∈ existingIdsFor db pid :=
          (mem_existingIdsFor db pid u.serviceId).mpr ⟨u, hu, hp, rfl⟩
        exact hpred ⟨hp, mem_toDeleteFor hE hs⟩
      · rw [List.mem_filter] at hi
        have hiC := hi.1
        rw [toCreateFor, List.mem_filter] at hiC
        have hiS : i ∈ S := (mem_jsSetList S i).mp hiC.1
        apply hs
        have hsi : u.serviceId = i := by rw [← hrow]
        rw [hsi]
        exact hiS

/-- `prisma.patient.update` leaves the usage and service tables alone. -/
theorem prismaPatientUpdate_ok_usages {db db1 : PatientDb} {pid : String}
    {p : PatientUpdatePayload} (h : prismaPatientUpdate db pid p = .ok db1) :
    db1.usages = db.usages ∧ db1.serviceIds = db.serviceIds := by
  unfold prismaPatientUpdate at h
  repeat' split at h
  all_goals (try exact Except.noConfusion h)
  all_goals cases h
  all_goals exact ⟨rfl, rfl⟩

/-- **C2**: when a `PUT /api/patients/[id]` carrying `serviceIds = S`
succeeds, the patient's usage service-id set afterwards is exactly the set
of ids in `S`; rows whose id stayed in `S` are the original row objects
(same `usedAt`), rows whose id left `S` are gone. -/
theorem c2_usage_reconciliation (db : PatientDb) (pid : String)
    (p : PatientUpdatePayload) (now : Int) (S : List String) (db' : PatientDb)
    (hS : p.serviceIds = some S)
    (hok : putPatient db pid p now = (db', .ok ())) :
    (∀ sid, (∃ u ∈ db'.usages, u.patientId = pid ∧ u.serviceId = sid) ↔ sid ∈ S) ∧
    (∀ u ∈ db.usages, u.patientId = pid → u.serviceId ∈ S → u ∈ db'.usages) ∧
    (∀ u ∈ db.usages, u.patientId = pid → u.serviceId ∉ S → u ∉ db'.usages) := by
  have htx : putPatientTxBody db pid p now = .ok db' := by
    unfold putPatient at hok
    cases htx : putPatientTxBody db pid p now with
    | ok d =>
      rw [htx] at hok
      obtain ⟨h1, -⟩ := Prod.mk.injEq .. ▸ hok
      rw [h1]
    | error e =>
      rw [htx] at hok
      obtain ⟨-, h2⟩ := Prod.mk.injEq .. ▸ hok
      exact Except.noConfusion h2
  unfold putPatientTxBody at htx
  cases hup : prismaPatientUpdate db pid p with
  | error e => rw [hup] at htx; exact Except.noConfusion htx
  | ok db1 =>
    rw [hup, hS] at htx
    obtain ⟨husg, -⟩ := prismaPatientUpdate_ok_usages hup
    obtain ⟨h1, h2, h3⟩ := reconcileUsages_ok_spec htx
    rw [husg] at h2 h3
    exact ⟨h1, h2, h3⟩

/-- Witness for C2 at `c2db`: updating with `["s2","s3"]` removes the s1
row, keeps the s2 row with its original timestamp and inserts an s3 row. -/
theorem c2_usage_reconciliation_witness :
    putPatient c2db "p1" c2payload 99 = (c2dbAfter, .ok ()) ∧
    (∃ u ∈ c2dbAfter.usages, u.patientId = "p1" ∧ u.serviceId = "s3") ∧
    (⟨"p1", "s2", 2⟩ : UsageRow) ∈ c2dbAfter.usages ∧
    (⟨"p1", "s1", 1⟩ : UsageRow) ∉ c2dbAfter.usages := by
  have h := c2_usage_reconciliation c2db "p1" c2payload 99 ["s2", "s3"]
    c2dbAfter rfl rfl
  exact ⟨rfl, (h.1 "s3").mpr (by decide),
    h.2.1 ⟨"p1", "s2", 2⟩ (by decide) rfl (by decide),
    h.2.2 ⟨"p1", "s1", 1⟩ (by decide) rfl (by decide)⟩

/-- **C3**: the patient update plus usage reconciliation runs inside
`prisma.$transaction`; when any step throws, the handler reports an error
and the database — patient rows and usage rows alike — is exactly the
pre-request one. -/
theorem c3_put_patient_atomic (db : PatientDb) (pid : String)
    (p : PatientUpdatePayload) (now : Int) (e : PrismaError)
    (h : (putPatient db pid p now).2 = .error e) :
    (putPatient db pid p now).1 = db := by
  unfold putPatient at h ⊢
  cases htx : putPatientTxBody db pid p now with
  | ok db1 => rw [htx] at h; simp at h
  | error e2 => rfl

/-- Witness for C3 at `c3db`: the patient-field step succeeds, the
`createMany` step hits a foreign-key failure, and the whole database is
left untouched. -/
theorem c3_put_patient_atomic_witness :
    (putPatient c3db "p1" c3payload 5).2 = .error .foreignKey ∧
    (putPatient c3db "p1" c3payload 5).1 = c3db :=
  ⟨rfl, c3_put_patient_atomic c3db "p1" c3payload 5 .foreignKey rfl⟩

end AdminKingsCare
